import Mathlib

/-!
Verification of the Simposter batch/scan operation-status subsystem.

This file shallowly embeds the client-side presentation stores
(`src/frontend/src/stores/operationStatus.ts`, `src/frontend/src/stores/scan.ts`),
the App-level status pollers (`src/frontend/src/App.vue`), the settings store
(`src/frontend/src/stores/settings.ts`) and the editor preset-seeding logic
(`src/unnamed/part_014`) as pure Lean functions, and proves the spec's claims
about them.

JavaScript timers are modelled explicitly: a pending `setTimeout` handle is an
`Option Timer` carrying a fresh numeric id drawn from a monotone counter, and
the firing of a timer is an event that only has an effect when the carried id
is still the pending one (a cleared timeout never fires).
-/

namespace Simposter

/-- A progress snapshot as received over the wire and fed to `applyStatus`
(fields used by `operationStatus.ts`, `scan.ts` and the pollers in `App.vue`). -/
structure Snapshot where
  state : String
  processed : Nat
  total : Nat
  current_movie : String
  current : String
  current_step : String
  error : Option String
  log : Option (List String)
  finished_at : Option String
deriving Repr, DecidableEq

/-- JS `a || b` on strings: `a` unless it is falsy (empty). -/
def strOr (a b : String) : String :=
  if a = "" then b else a

/-- JS truthiness of an optional string (`undefined`, `null` and `""` are falsy). -/
def strTruthy (o : Option String) : Bool :=
  match o with
  | some s => s ≠ ""
  | none => false

/-- JS `x || null` on an optional string: empty string collapses to null. -/
def jsOrNull (o : Option String) : Option String :=
  match o with
  | some s => if s = "" then none else some s
  | none => none

/-- JS `x || now` on an optional string (used for `status.finished_at || new Date().toISOString()`). -/
def strOrElse (o : Option String) (dflt : String) : String :=
  match o with
  | some s => if s = "" then dflt else s
  | none => dflt

/-- A pending `setTimeout` handle: a fresh id plus the delay it was scheduled with. -/
structure Timer where
  id : Nat
  delayMs : Nat
deriving Repr, DecidableEq

/-! ## The unified operation-status projector (`stores/operationStatus.ts`) -/

/-- Module-level reactive state of `useOperationStatus` plus the timer-id
supply (`nextTimer`) that models fresh `setTimeout` handles. -/
structure OpStatus where
  type : Option String
  state : String
  visible : Bool
  processed : Nat
  total : Nat
  currentMovie : String
  currentStep : String
  error : Option String
  checking : Bool
  activeRunStarted : Bool
  hideTimer : Option Timer
  nextTimer : Nat
deriving Repr, DecidableEq

/-- Initial module state of `operationStatus.ts`. -/
def opInit : OpStatus :=
  { type := none, state := "idle", visible := false, processed := 0, total := 0
    currentMovie := "", currentStep := "", error := none, checking := false
    activeRunStarted := false, hideTimer := none, nextTimer := 0 }

/-- Embeds `scheduleHide` of `operationStatus.ts`: clear any pending timer and set a
fresh single-shot 5000 ms timer. -/
def scheduleHide (s : OpStatus) : OpStatus :=
  { s with hideTimer := some ⟨s.nextTimer, 5000⟩, nextTimer := s.nextTimer + 1 }

/-- Embeds `applyStatus(status, operationType)` of `operationStatus.ts`. -/
def applyStatus (snap : Snapshot) (opType : Option String) (s : OpStatus) : OpStatus :=
  let isRunning := snap.state = "running"
  let isDone := snap.state = "done"
  let isError := snap.state = "error"
  -- Cancel hide timer when a new run starts
  let s := if isRunning ∧ s.hideTimer.isSome then { s with hideTimer := none } else s
  let s := { s with state := if snap.state = "" then "idle" else snap.state, type := opType }
  let s := if isRunning then { s with activeRunStarted := true } else s
  let showCompletion := (isDone ∨ isError) ∧ s.activeRunStarted
  -- Keep overlay visible while running, or briefly after completion
  let s :=
    { s with visible := isRunning ∨ showCompletion
             processed := snap.processed, total := snap.total
             currentMovie := strOr snap.current_movie (strOr snap.current "")
             currentStep := snap.current_step
             error := jsOrNull snap.error
             checking := false }
  if showCompletion then scheduleHide { s with activeRunStarted := false }
  else if ¬ isRunning then { s with visible := false }
  else s

/-- Firing of the `setTimeout` callback installed by `scheduleHide`; a cleared
or superseded timer (id mismatch) has no effect. -/
def fireHide (i : Nat) (s : OpStatus) : OpStatus :=
  match s.hideTimer with
  | some t =>
      if t.id = i then
        { s with hideTimer := none, visible := false, currentMovie := ""
                 currentStep := "", type := none }
      else s
  | none => s

/-- Embeds `reset()` of `operationStatus.ts`. -/
def opReset (s : OpStatus) : OpStatus :=
  { type := none, state := "idle", visible := false, processed := 0, total := 0
    currentMovie := "", currentStep := "", error := none, checking := false
    activeRunStarted := false, hideTimer := none, nextTimer := s.nextTimer }

/-- Events the unified projector reacts to. -/
inductive OpEvent where
  | apply (snap : Snapshot) (opType : Option String)
  | fire (id : Nat)
  | reset
deriving Repr, DecidableEq

/-- One event step of the unified projector. -/
def opStep (s : OpStatus) (e : OpEvent) : OpStatus :=
  match e with
  | .apply snap opType => applyStatus snap opType s
  | .fire i => fireHide i s
  | .reset => opReset s

/-- A sequence of events applied in order. -/
def opRun (s : OpStatus) (evs : List OpEvent) : OpStatus :=
  evs.foldl opStep s

/-! ## The legacy scan store (`stores/scan.ts`) -/

/-- Module-level reactive state of `useScanStore` plus the timer-id supply. -/
structure ScanStore where
  running : Bool
  visible : Bool
  processed : Nat
  total : Nat
  current : String
  log : List String
  checking : Bool
  activeRunStarted : Bool
  lastFinishedAt : Option String
  hideTimer : Option Timer
  nextTimer : Nat
deriving Repr, DecidableEq

/-- Initial module state of `scan.ts`. -/
def scanInit : ScanStore :=
  { running := false, visible := false, processed := 0, total := 0, current := ""
    log := [], checking := false, activeRunStarted := false, lastFinishedAt := none
    hideTimer := none, nextTimer := 0 }

/-- Embeds `scheduleHide` of `scan.ts`: clear any pending timer and set a fresh
single-shot 5000 ms timer. -/
def scanScheduleHide (s : ScanStore) : ScanStore :=
  { s with hideTimer := some ⟨s.nextTimer, 5000⟩, nextTimer := s.nextTimer + 1 }

/-- Embeds `applyStatus(status)` of `scan.ts`.  `now` stands for
`new Date().toISOString()` at the time of the call. -/
def scanApplyStatus (snap : Snapshot) (now : String) (s : ScanStore) : ScanStore :=
  let isRunning := snap.state = "running"
  let isDone := snap.state = "done"
  -- Only cancel hide timer when a new run is in progress
  let s := if isRunning ∧ s.hideTimer.isSome then { s with hideTimer := none } else s
  let s := { s with running := isRunning }
  let s := if isRunning then { s with activeRunStarted := true } else s
  let showCompletion := isDone ∧ s.activeRunStarted
  -- Keep overlay visible while running, or briefly after a run completes we initiated
  let s :=
    { s with visible := s.running ∨ showCompletion
             processed := snap.processed, total := snap.total
             current := if isDone then "" else strOr snap.current ""
             log := match snap.log with | some l => l | none => s.log
             checking := false }
  if showCompletion then
    let doneLine :=
      "Done" ++ (if s.total ≠ 0 then ": " ++ toString s.processed ++ "/" ++ toString s.total else "")
    scanScheduleHide
      { s with log := [doneLine], lastFinishedAt := some (strOrElse snap.finished_at now)
               activeRunStarted := false, running := false }
  else if ¬ s.running then
    -- If not running and not a fresh completion we started, keep overlay hidden
    { s with visible := false
             lastFinishedAt :=
               if isDone ∧ strTruthy snap.finished_at then snap.finished_at
               else s.lastFinishedAt }
  else s

/-- Firing of the `setTimeout` callback installed by `scanScheduleHide`. -/
def scanFireHide (i : Nat) (s : ScanStore) : ScanStore :=
  match s.hideTimer with
  | some t =>
      if t.id = i then
        { s with hideTimer := none, visible := false, log := [], current := "" }
      else s
  | none => s

/-- Embeds `reset()` of `scan.ts`. -/
def scanReset (s : ScanStore) : ScanStore :=
  { running := false, visible := false, processed := 0, total := 0, current := ""
    log := [], checking := false, activeRunStarted := false, lastFinishedAt := none
    hideTimer := none, nextTimer := s.nextTimer }

/-- Events the scan store reacts to. -/
inductive ScanEvent where
  | apply (snap : Snapshot) (now : String)
  | fire (id : Nat)
  | reset
deriving Repr, DecidableEq

/-- One event step of the scan store. -/
def scanStep (s : ScanStore) (e : ScanEvent) : ScanStore :=
  match e with
  | .apply snap now => scanApplyStatus snap now s
  | .fire i => scanFireHide i s
  | .reset => scanReset s

/-- A sequence of scan-store events applied in order. -/
def scanRun (s : ScanStore) (evs : List ScanEvent) : ScanStore :=
  evs.foldl scanStep s

/-! ## The App-level status pollers (`App.vue`) -/

/-- Outcome of one `fetch` of a progress endpoint: a parsed snapshot, a thrown
network error, or a response with `!res.ok`. -/
inductive FetchResult where
  | ok (snap : Snapshot)
  | networkError
  | httpNotOk
deriving Repr, DecidableEq

/-- Module-level state of `App.vue`: the two interval handles (holding their
interval in milliseconds when active), the two stores they feed, and a count
of progress requests issued so far. -/
structure AppState where
  scanPoller : Option Nat
  batchPoller : Option Nat
  scanStore : ScanStore
  op : OpStatus
  requests : Nat
deriving Repr, DecidableEq

/-- Initial `App.vue` module state. -/
def appInit : AppState :=
  { scanPoller := none, batchPoller := none, scanStore := scanInit, op := opInit
    requests := 0 }

/-- Embeds `stopScanPolling` of `App.vue`. -/
def stopScanPolling (s : AppState) : AppState :=
  { s with scanPoller := none }

/-- Embeds `stopBatchPolling` of `App.vue`. -/
def stopBatchPolling (s : AppState) : AppState :=
  { s with batchPoller := none }

/-- Body of the scan poller's interval callback in `App.vue` (a fetch of
`/api/scan-progress` whose outcome is `r`): on failure or `!res.ok` nothing
but the request count changes; on success the data is fed to the scan store
and a non-running state stops the poller. -/
def scanPollBody (r : FetchResult) (now : String) (s : AppState) : AppState :=
  let s := { s with requests := s.requests + 1 }
  match r with
  | .networkError => s
  | .httpNotOk => s
  | .ok data =>
      let s := { s with scanStore := scanApplyStatus data now s.scanStore }
      if data.state ≠ "" ∧ data.state ≠ "running" then stopScanPolling s else s

/-- One tick of the scan interval: the callback only runs while the interval
is installed. -/
def scanTick (r : FetchResult) (now : String) (s : AppState) : AppState :=
  if s.scanPoller.isSome then scanPollBody r now s else s

/-- Embeds `startScanPolling` of `App.vue`: stop any previous poller and install a
3000 ms interval.  No fetch is issued at start; the first fetch happens at
the first tick. -/
def startScanPolling (s : AppState) : AppState :=
  { stopScanPolling s with scanPoller := some 3000 }

/-- Embeds `pollOnce` inside `startBatchPolling` of `App.vue` (a fetch of
`/api/batch-progress` whose outcome is `r`). -/
def batchPollOnce (r : FetchResult) (s : AppState) : AppState :=
  let s := { s with requests := s.requests + 1 }
  match r with
  | .networkError => s
  | .httpNotOk => s
  | .ok data =>
      let s := { s with op := applyStatus data (some "batch") s.op }
      if data.state ≠ "" ∧ data.state ≠ "running" then stopBatchPolling s else s

/-- One tick of the batch interval: `pollOnce`, run only while the interval
is installed. -/
def batchTick (r : FetchResult) (s : AppState) : AppState :=
  if s.batchPoller.isSome then batchPollOnce r s else s

/-- Embeds `startBatchPolling` of `App.vue`: stop any previous poller, issue an
immediate `pollOnce`, and install a 200 ms interval.  `pollOnce` is async and
not awaited, so the interval is installed before the immediate fetch's
response is handled; `r` is that response's outcome. -/
def startBatchPolling (r : FetchResult) (s : AppState) : AppState :=
  batchPollOnce r { stopBatchPolling s with batchPoller := some 200 }

/-! ## The settings store (`stores/settings.ts`) -/

/-- Module-level reactive state of `useSettingsStore`. -/
structure SettingsStore where
  theme : String
  showBoundingBoxes : Bool
  autoSave : Bool
  posterDensity : Nat
  defaultLabelsToRemove : List String
  saveLocation : String
  loading : Bool
  error : Option String
  loaded : Bool
deriving Repr, DecidableEq

/-- Initial module state of `settings.ts`. -/
def settingsInit : SettingsStore :=
  { theme := "neon", showBoundingBoxes := true, autoSave := false
    posterDensity := 20, defaultLabelsToRemove := [], saveLocation := "/output"
    loading := false, error := none, loaded := false }

/-- Outcome of the `POST /api/ui-settings` persistence request. -/
inductive SaveResult where
  | ok
  | httpError (status : Nat)
  | networkError (msg : String)
deriving Repr, DecidableEq

/-- Embeds `saveSettings()` of `settings.ts`: builds the payload from the current
values, posts it, and on a non-ok response or thrown error records the error
message; the settings values themselves are never written. -/
def saveSettings (r : SaveResult) (s : SettingsStore) : SettingsStore :=
  let s := { s with loading := true, error := none }
  let s :=
    match r with
    | .ok => s
    | .httpError status => { s with error := some ("API error " ++ toString status) }
    | .networkError msg => { s with error := some msg }
  { s with loading := false }

/-! ## Editor preset seeding and render payload (`src/unnamed/part_014`) -/

/-- JS `Math.round`: round half toward positive infinity. -/
def jsRound (x : ℚ) : ℤ :=
  Rat.floor (x + 1 / 2)

/-- A preset's free-form `options` bundle, restricted to the fields the editor
recognizes; every field may be absent. -/
structure PresetOptions where
  poster_zoom : Option ℚ
  poster_shift_y : Option ℚ
  matte_height_ratio : Option ℚ
  fade_height_ratio : Option ℚ
  vignette_strength : Option ℚ
  grain_amount : Option ℚ
  logo_scale : Option ℚ
  logo_offset : Option ℚ
  border_enabled : Option Bool
  border_px : Option ℚ
  border_color : Option String
  overlay_file : Option String
  overlay_opacity : Option ℚ
  overlay_mode : Option String
  poster_filter : Option String
  logo_preference : Option String
deriving Repr, DecidableEq

/-- A preset with every options field absent. -/
def emptyPresetOptions : PresetOptions :=
  { poster_zoom := none, poster_shift_y := none, matte_height_ratio := none
    fade_height_ratio := none, vignette_strength := none, grain_amount := none
    logo_scale := none, logo_offset := none, border_enabled := none
    border_px := none, border_color := none, overlay_file := none
    overlay_opacity := none, overlay_mode := none, poster_filter := none
    logo_preference := none }

/-- The editor's live slider state: the `options` ref of `part_014` plus the
`posterFilter`, `logoPreference`, `logoMode` and `logoHex` refs. -/
structure EditorState where
  posterZoom : ℤ
  posterShiftY : ℤ
  matteHeight : ℤ
  fadeHeight : ℤ
  vignette : ℤ
  grain : ℤ
  logoScale : ℤ
  logoOffset : ℤ
  borderEnabled : Bool
  borderThickness : ℚ
  borderColor : String
  overlayFile : String
  overlayOpacity : ℤ
  overlayMode : String
  posterFilter : String
  logoPreference : String
  logoMode : String
  logoHex : String
deriving Repr, DecidableEq

/-- Initial values of the editor refs in `part_014`. -/
def editorInit : EditorState :=
  { posterZoom := 100, posterShiftY := 0, matteHeight := 0, fadeHeight := 0
    vignette := 0, grain := 0, logoScale := 50, logoOffset := 75
    borderEnabled := false, borderThickness := 0, borderColor := "#ffffff"
    overlayFile := "", overlayOpacity := 40, overlayMode := "screen"
    posterFilter := "all", logoPreference := "first", logoMode := "original"
    logoHex := "#ffffff" }

/-- The body of `watch(selectedPreset)` in `part_014`, run when the selected
preset has an `options` bundle: seed the live sliders from the preset. -/
def seedFromPreset (o : PresetOptions) (e : EditorState) : EditorState :=
  let e :=
    { e with posterZoom := jsRound ((o.poster_zoom.getD 1) * 100)
             posterShiftY := jsRound ((o.poster_shift_y.getD 0) * 100)
             matteHeight := jsRound ((o.matte_height_ratio.getD 0) * 100)
             fadeHeight := jsRound ((o.fade_height_ratio.getD 0) * 100)
             vignette := jsRound ((o.vignette_strength.getD 0) * 100)
             grain := jsRound ((o.grain_amount.getD 0) * 100)
             logoScale := jsRound ((o.logo_scale.getD (1 / 2)) * 100)
             logoOffset := jsRound ((o.logo_offset.getD (3 / 4)) * 100)
             borderEnabled := o.border_enabled.getD false
             borderThickness := o.border_px.getD 0 }
  let e := if strTruthy o.border_color then { e with borderColor := o.border_color.getD "" } else e
  let e := if strTruthy o.overlay_file then { e with overlayFile := o.overlay_file.getD "" } else e
  let e :=
    match o.overlay_opacity with
    | some v => { e with overlayOpacity := jsRound (v * 100) }
    | none => e
  let e := if strTruthy o.overlay_mode then { e with overlayMode := o.overlay_mode.getD "" } else e
  let e := if strTruthy o.poster_filter then { e with posterFilter := o.poster_filter.getD "" } else e
  if strTruthy o.logo_preference then { e with logoPreference := o.logo_preference.getD "" } else e

/-- The options object sent to a render call (`optionsPayload` in `part_014`).
`overlay_file` is the only field the code ever sets to `null`. -/
structure OptionsPayload where
  poster_zoom : ℚ
  poster_shift_y : ℚ
  matte_height_ratio : ℚ
  fade_height_ratio : ℚ
  vignette_strength : ℚ
  grain_amount : ℚ
  logo_scale : ℚ
  logo_offset : ℚ
  border_enabled : Bool
  border_px : ℚ
  border_color : String
  overlay_file : Option String
  overlay_opacity : ℚ
  overlay_mode : String
  logo_mode : String
  logo_hex : String
  poster_filter : String
  logo_preference : String
deriving Repr, DecidableEq

/-- Embeds `optionsPayload` of `part_014`. -/
def optionsPayload (e : EditorState) : OptionsPayload :=
  { poster_zoom := (e.posterZoom : ℚ) / 100
    poster_shift_y := (e.posterShiftY : ℚ) / 100
    matte_height_ratio := (e.matteHeight : ℚ) / 100
    fade_height_ratio := (e.fadeHeight : ℚ) / 100
    vignette_strength := (e.vignette : ℚ) / 100
    grain_amount := (e.grain : ℚ) / 100
    logo_scale := (e.logoScale : ℚ) / 100
    logo_offset := (e.logoOffset : ℚ) / 100
    border_enabled := e.borderEnabled
    border_px := e.borderThickness
    border_color := e.borderColor
    overlay_file := if e.overlayFile = "" then none else some e.overlayFile
    overlay_opacity := (e.overlayOpacity : ℚ) / 100
    overlay_mode := e.overlayMode
    logo_mode := e.logoMode
    logo_hex := e.logoHex
    poster_filter := e.posterFilter
    logo_preference := e.logoPreference }

/-! ## Concrete values and invariant definitions used by the theorems -/

/-- A concrete `running` snapshot. -/
def runningSnap : Snapshot :=
  { state := "running", processed := 3, total := 10, current_movie := "Movie A", current := ""
    current_step := "fetching poster", error := none, log := none, finished_at := none }

/-- A concrete `done` snapshot. -/
def doneSnap : Snapshot :=
  { state := "done", processed := 10, total := 10, current_movie := "", current := ""
    current_step := "", error := none, log := none, finished_at := none }

/-- An App state in which the batch poller is installed and the projector
currently reflects `running` (no terminal state has ever been reflected). -/
def pollerRunningState : AppState :=
  { appInit with batchPoller := some 200, op := { opInit with state := "running" } }

/-- Decidable form of the visibility invariant: whenever the unified projector
is visible, its state is `running`, `done` or `error`. -/
def opInvB (s : OpStatus) : Bool :=
  !s.visible || (s.state == "running" || (s.state == "done" || s.state == "error"))

/-- Lower bound `n` on the projector's timer-id supply and on any pending
timer id; preserved by every projector event (fresh ids only grow). -/
def opTimerLB (n : Nat) (s : OpStatus) : Prop :=
  n ≤ s.nextTimer ∧ ∀ t : Timer, s.hideTimer = some t → n ≤ t.id

/-- Freshness: any pending timer id is below the timer-id supply. -/
def opTimerFresh (s : OpStatus) : Prop :=
  ∀ t : Timer, s.hideTimer = some t → t.id < s.nextTimer

/-- Scan-store analogue of `opTimerLB`. -/
def scanTimerLB (n : Nat) (s : ScanStore) : Prop :=
  n ≤ s.nextTimer ∧ ∀ t : Timer, s.hideTimer = some t → n ≤ t.id

/-- Scan-store analogue of `opTimerFresh`. -/
def scanTimerFresh (s : ScanStore) : Prop :=
  ∀ t : Timer, s.hideTimer = some t → t.id < s.nextTimer

/-! ## Timer bookkeeping lemmas -/

/-- Applying a snapshot either keeps the timer-id supply and keeps or clears
the pending timer, or draws one fresh id for a newly scheduled timer. -/
lemma applyStatus_timer_cases (snap : Snapshot) (ty : Option String) (s : OpStatus) :
    ((applyStatus snap ty s).nextTimer = s.nextTimer ∧
      ((applyStatus snap ty s).hideTimer = none ∨ (applyStatus snap ty s).hideTimer = s.hideTimer)) ∨
    ((applyStatus snap ty s).nextTimer = s.nextTimer + 1 ∧
      (applyStatus snap ty s).hideTimer = some ⟨s.nextTimer, 5000⟩) := by
  simp only [applyStatus, scheduleHide]
  split_ifs <;> simp

/-- Firing a timer keeps the id supply and keeps or clears the pending timer. -/
lemma fireHide_timer_cases (i : Nat) (s : OpStatus) :
    (fireHide i s).nextTimer = s.nextTimer ∧
      ((fireHide i s).hideTimer = none ∨ (fireHide i s).hideTimer = s.hideTimer) := by
  unfold fireHide
  cases h : s.hideTimer with
  | none => simp [h]
  | some t => by_cases hid : t.id = i <;> simp [hid, h]

/-- Resetting keeps the id supply and clears the pending timer. -/
lemma opReset_timer (s : OpStatus) :
    (opReset s).nextTimer = s.nextTimer ∧ (opReset s).hideTimer = none := by
  simp [opReset]

/-- Every projector event either leaves the timer-id supply alone and keeps or
clears the pending timer, or draws one fresh id for a new pending timer. -/
lemma opStep_timer_cases (s : OpStatus) (e : OpEvent) :
    ((opStep s e).nextTimer = s.nextTimer ∧
      ((opStep s e).hideTimer = none ∨ (opStep s e).hideTimer = s.hideTimer)) ∨
    ((opStep s e).nextTimer = s.nextTimer + 1 ∧
      (opStep s e).hideTimer = some ⟨s.nextTimer, 5000⟩) := by
  cases e with
  | apply snap ty => simpa only [opStep] using applyStatus_timer_cases snap ty s
  | fire i => exact Or.inl (by simpa only [opStep] using fireHide_timer_cases i s)
  | reset => exact Or.inl ⟨(opReset_timer s).1, Or.inl (opReset_timer s).2⟩

/-- One event preserves the timer-id lower bound. -/
lemma opStep_timerLB {n : Nat} {s : OpStatus} (e : OpEvent) (h : opTimerLB n s) :
    opTimerLB n (opStep s e) := by
  obtain ⟨h1, h2⟩ := h
  rcases opStep_timer_cases s e with ⟨hn, hh | hh⟩ | ⟨hn, hh⟩
  · exact ⟨by omega, fun t ht => by rw [hh] at ht; cases ht⟩
  · exact ⟨by omega, fun t ht => by rw [hh] at ht; exact h2 t ht⟩
  · refine ⟨by omega, fun t ht => ?_⟩
    rw [hh] at ht
    simp only [Option.some.injEq] at ht
    subst ht
    simpa using h1

/-- Any event sequence preserves the timer-id lower bound. -/
lemma opRun_timerLB {n : Nat} {s : OpStatus} (evs : List OpEvent) (h : opTimerLB n s) :
    opTimerLB n (opRun s evs) := by
  induction evs generalizing s with
  | nil => exact h
  | cons e evs ih => exact ih (opStep_timerLB e h)

/-- One event preserves timer freshness. -/
lemma opStep_timerFresh {s : OpStatus} (e : OpEvent) (h : opTimerFresh s) :
    opTimerFresh (opStep s e) := by
  rcases opStep_timer_cases s e with ⟨hn, hh | hh⟩ | ⟨hn, hh⟩ <;> intro t ht <;> rw [hh] at ht
  · cases ht
  · have := h t ht; omega
  · simp only [Option.some.injEq] at ht
    subst ht
    simp only [hn]
    omega

/-- Any event sequence preserves timer freshness. -/
lemma opRun_timerFresh' {s : OpStatus} (evs : List OpEvent) (h : opTimerFresh s) :
    opTimerFresh (opRun s evs) := by
  induction evs generalizing s with
  | nil => exact h
  | cons e evs ih => exact ih (opStep_timerFresh e h)

/-- Every state reachable from the initial projector state has fresh timers. -/
lemma opRun_timerFresh (evs : List OpEvent) : opTimerFresh (opRun opInit evs) :=
  opRun_timerFresh' evs (fun t ht => by simp [opInit] at ht)

/-- Firing a timer whose id is not the pending one changes nothing (a cleared
timeout never fires). -/
lemma fireHide_noop {i : Nat} {s : OpStatus} (h : ∀ t : Timer, s.hideTimer = some t → t.id ≠ i) :
    fireHide i s = s := by
  unfold fireHide
  cases hh : s.hideTimer with
  | none => rfl
  | some t => simp [h t hh]

/-- Scan-store analogue of `applyStatus_timer_cases`. -/
lemma scanApplyStatus_timer_cases (snap : Snapshot) (now : String) (s : ScanStore) :
    ((scanApplyStatus snap now s).nextTimer = s.nextTimer ∧
      ((scanApplyStatus snap now s).hideTimer = none ∨
        (scanApplyStatus snap now s).hideTimer = s.hideTimer)) ∨
    ((scanApplyStatus snap now s).nextTimer = s.nextTimer + 1 ∧
      (scanApplyStatus snap now s).hideTimer = some ⟨s.nextTimer, 5000⟩) := by
  simp only [scanApplyStatus, scanScheduleHide]
  split_ifs <;> simp

/-- Scan-store analogue of `fireHide_timer_cases`. -/
lemma scanFireHide_timer_cases (i : Nat) (s : ScanStore) :
    (scanFireHide i s).nextTimer = s.nextTimer ∧
      ((scanFireHide i s).hideTimer = none ∨ (scanFireHide i s).hideTimer = s.hideTimer) := by
  unfold scanFireHide
  cases h : s.hideTimer with
  | none => simp [h]
  | some t => by_cases hid : t.id = i <;> simp [hid, h]

/-- Scan-store analogue of `opReset_timer`. -/
lemma scanReset_timer (s : ScanStore) :
    (scanReset s).nextTimer = s.nextTimer ∧ (scanReset s).hideTimer = none := by
  simp [scanReset]

/-- Scan-store analogue of `opStep_timer_cases`. -/
lemma scanStep_timer_cases (s : ScanStore) (e : ScanEvent) :
    ((scanStep s e).nextTimer = s.nextTimer ∧
      ((scanStep s e).hideTimer = none ∨ (scanStep s e).hideTimer = s.hideTimer)) ∨
    ((scanStep s e).nextTimer = s.nextTimer + 1 ∧
      (scanStep s e).hideTimer = some ⟨s.nextTimer, 5000⟩) := by
  cases e with
  | apply snap now => simpa only [scanStep] using scanApplyStatus_timer_cases snap now s
  | fire i => exact Or.inl (by simpa only [scanStep] using scanFireHide_timer_cases i s)
  | reset => exact Or.inl ⟨(scanReset_timer s).1, Or.inl (scanReset_timer s).2⟩

/-- Scan-store analogue of `opStep_timerLB`. -/
lemma scanStep_timerLB {n : Nat} {s : ScanStore} (e : ScanEvent) (h : scanTimerLB n s) :
    scanTimerLB n (scanStep s e) := by
  obtain ⟨h1, h2⟩ := h
  rcases scanStep_timer_cases s e with ⟨hn, hh | hh⟩ | ⟨hn, hh⟩
  · exact ⟨by omega, fun t ht => by rw [hh] at ht; cases ht⟩
  · exact ⟨by omega, fun t ht => by rw [hh] at ht; exact h2 t ht⟩
  · refine ⟨by omega, fun t ht => ?_⟩
    rw [hh] at ht
    simp only [Option.some.injEq] at ht
    subst ht
    simpa using h1

/-- Scan-store analogue of `opRun_timerLB`. -/
lemma scanRun_timerLB {n : Nat} {s : ScanStore} (evs : List ScanEvent) (h : scanTimerLB n s) :
    scanTimerLB n (scanRun s evs) := by
  induction evs generalizing s with
  | nil => exact h
  | cons e evs ih => exact ih (scanStep_timerLB e h)

/-- Scan-store analogue of `opStep_timerFresh`. -/
lemma scanStep_timerFresh {s : ScanStore} (e : ScanEvent) (h : scanTimerFresh s) :
    scanTimerFresh (scanStep s e) := by
  rcases scanStep_timer_cases s e with ⟨hn, hh | hh⟩ | ⟨hn, hh⟩ <;> intro t ht <;> rw [hh] at ht
  · cases ht
  · have := h t ht; omega
  · simp only [Option.some.injEq] at ht
    subst ht
    simp only [hn]
    omega

/-- Scan-store analogue of `opRun_timerFresh'`. -/
lemma scanRun_timerFresh' {s : ScanStore} (evs : List ScanEvent) (h : scanTimerFresh s) :
    scanTimerFresh (scanRun s evs) := by
  induction evs generalizing s with
  | nil => exact h
  | cons e evs ih => exact ih (scanStep_timerFresh e h)

/-- Every state reachable from the initial scan-store state has fresh timers. -/
lemma scanRun_timerFresh (evs : List ScanEvent) : scanTimerFresh (scanRun scanInit evs) :=
  scanRun_timerFresh' evs (fun t ht => by simp [scanInit] at ht)

/-- Scan-store analogue of `fireHide_noop`. -/
lemma scanFireHide_noop {i : Nat} {s : ScanStore}
    (h : ∀ t : Timer, s.hideTimer = some t → t.id ≠ i) :
    scanFireHide i s = s := by
  unfold scanFireHide
  cases hh : s.hideTimer with
  | none => rfl
  | some t => simp [h t hh]

/-- Explicit record shape of `seedFromPreset`. -/
lemma seedFromPreset_eq (o : PresetOptions) (e : EditorState) :
    seedFromPreset o e =
      { posterZoom := jsRound ((o.poster_zoom.getD 1) * 100)
        posterShiftY := jsRound ((o.poster_shift_y.getD 0) * 100)
        matteHeight := jsRound ((o.matte_height_ratio.getD 0) * 100)
        fadeHeight := jsRound ((o.fade_height_ratio.getD 0) * 100)
        vignette := jsRound ((o.vignette_strength.getD 0) * 100)
        grain := jsRound ((o.grain_amount.getD 0) * 100)
        logoScale := jsRound ((o.logo_scale.getD (1 / 2)) * 100)
        logoOffset := jsRound ((o.logo_offset.getD (3 / 4)) * 100)
        borderEnabled := o.border_enabled.getD false
        borderThickness := o.border_px.getD 0
        borderColor := if strTruthy o.border_color then o.border_color.getD "" else e.borderColor
        overlayFile := if strTruthy o.overlay_file then o.overlay_file.getD "" else e.overlayFile
        overlayOpacity :=
          match o.overlay_opacity with
          | some v => jsRound (v * 100)
          | none => e.overlayOpacity
        overlayMode := if strTruthy o.overlay_mode then o.overlay_mode.getD "" else e.overlayMode
        posterFilter := if strTruthy o.poster_filter then o.poster_filter.getD "" else e.posterFilter
        logoPreference :=
          if strTruthy o.logo_preference then o.logo_preference.getD "" else e.logoPreference
        logoMode := e.logoMode
        logoHex := e.logoHex } := by
  unfold seedFromPreset
  cases ho : o.overlay_opacity <;> split_ifs <;> rfl

/-! ## Claims -/

/-- Claim C1: a projector just created (no prior snapshot applied, so
`activeRunStarted` is false) that receives a single terminal snapshot (state
`done` or `error`) ends with `visible = false` — no completion banner is shown
for a run the client never observed running.  Proved for both the unified
operation-status projector and the legacy scan store. -/
theorem freshProjector_terminal_invisible (snap : Snapshot) (ty : Option String) (now : String)
    (h : snap.state = "done" ∨ snap.state = "error") :
    (applyStatus snap ty opInit).visible = false ∧
      (scanApplyStatus snap now scanInit).visible = false := by
  rcases h with h | h <;>
    simp [applyStatus, scanApplyStatus, opInit, scanInit, scheduleHide, scanScheduleHide, h]

/-- Witness for C1 at a concrete `done` snapshot. -/
theorem freshProjector_terminal_invisible_witness :
    (applyStatus doneSnap (some "batch") opInit).visible = false ∧
      (scanApplyStatus doneSnap "2024-01-01T00:00:00Z" scanInit).visible = false :=
  freshProjector_terminal_invisible doneSnap (some "batch") "2024-01-01T00:00:00Z" (Or.inl rfl)

/-- Claim C2: after a `running` snapshot followed by a `done` snapshot the
unified projector shows `visible = true` with the final snapshot's
`processed`/`total`, a single-shot 5000 ms hide timer is pending, and when
that timer fires the overlay hides, the transient text fields (current movie
and current step) clear to empty, and no timer remains pending. -/
theorem runningThenDone_showsThenHides (s : OpStatus) (r d : Snapshot) (ty1 ty2 : Option String)
    (hr : r.state = "running") (hd : d.state = "done") :
    (applyStatus d ty2 (applyStatus r ty1 s)).visible = true ∧
    (applyStatus d ty2 (applyStatus r ty1 s)).processed = d.processed ∧
    (applyStatus d ty2 (applyStatus r ty1 s)).total = d.total ∧
    ∃ t : Timer,
      (applyStatus d ty2 (applyStatus r ty1 s)).hideTimer = some t ∧ t.delayMs = 5000 ∧
      (fireHide t.id (applyStatus d ty2 (applyStatus r ty1 s))).visible = false ∧
      (fireHide t.id (applyStatus d ty2 (applyStatus r ty1 s))).currentMovie = "" ∧
      (fireHide t.id (applyStatus d ty2 (applyStatus r ty1 s))).currentStep = "" ∧
      (fireHide t.id (applyStatus d ty2 (applyStatus r ty1 s))).hideTimer = none := by
  simp [applyStatus, scheduleHide, fireHide, hr, hd]

/-- Witness for C2 at concrete `running` and `done` snapshots. -/
theorem runningThenDone_showsThenHides_witness :
    (applyStatus doneSnap (some "batch") (applyStatus runningSnap (some "batch") opInit)).visible = true ∧
    (applyStatus doneSnap (some "batch") (applyStatus runningSnap (some "batch") opInit)).processed = doneSnap.processed ∧
    (applyStatus doneSnap (some "batch") (applyStatus runningSnap (some "batch") opInit)).total = doneSnap.total ∧
    ∃ t : Timer,
      (applyStatus doneSnap (some "batch") (applyStatus runningSnap (some "batch") opInit)).hideTimer = some t ∧ t.delayMs = 5000 ∧
      (fireHide t.id (applyStatus doneSnap (some "batch") (applyStatus runningSnap (some "batch") opInit))).visible = false ∧
      (fireHide t.id (applyStatus doneSnap (some "batch") (applyStatus runningSnap (some "batch") opInit))).currentMovie = "" ∧
      (fireHide t.id (applyStatus doneSnap (some "batch") (applyStatus runningSnap (some "batch") opInit))).currentStep = "" ∧
      (fireHide t.id (applyStatus doneSnap (some "batch") (applyStatus runningSnap (some "batch") opInit))).hideTimer = none :=
  runningThenDone_showsThenHides opInit runningSnap doneSnap (some "batch") (some "batch") rfl rfl

/-- Claim C3: a `running` snapshot applied to a reachable projector state with
a pending hide timer cancels that timer before the new cycle starts, and the
cancelled timer's callback never fires again — along every subsequent event
sequence, firing the stale timer id changes nothing, so the overlay of the new
run is never hidden early by the old run's timer.  Proved for both the unified
projector and the legacy scan store. -/
theorem running_cancels_pendingHide (evs0 : List OpEvent) (t : Timer) (snap : Snapshot)
    (ty : Option String) (evs : List OpEvent)
    (evs0' : List ScanEvent) (t' : Timer) (snap' : Snapshot) (now : String)
    (evs' : List ScanEvent)
    (hpend : (opRun opInit evs0).hideTimer = some t) (hrun : snap.state = "running")
    (hpend' : (scanRun scanInit evs0').hideTimer = some t') (hrun' : snap'.state = "running") :
    (applyStatus snap ty (opRun opInit evs0)).hideTimer = none ∧
    (let s1 := applyStatus snap ty (opRun opInit evs0)
     fireHide t.id (opRun s1 evs) = opRun s1 evs) ∧
    (scanApplyStatus snap' now (scanRun scanInit evs0')).hideTimer = none ∧
    (let u1 := scanApplyStatus snap' now (scanRun scanInit evs0')
     scanFireHide t'.id (scanRun u1 evs') = scanRun u1 evs') := by
  have hfresh : t.id < (opRun opInit evs0).nextTimer := opRun_timerFresh evs0 t hpend
  have hfresh' : t'.id < (scanRun scanInit evs0').nextTimer := scanRun_timerFresh evs0' t' hpend'
  have hcancel : (applyStatus snap ty (opRun opInit evs0)).hideTimer = none := by
    simp [applyStatus, scheduleHide, hrun, hpend]
  have hcancel' : (scanApplyStatus snap' now (scanRun scanInit evs0')).hideTimer = none := by
    simp [scanApplyStatus, scanScheduleHide, hrun', hpend']
  refine ⟨hcancel, ?_, hcancel', ?_⟩
  · have hnext : (opRun opInit evs0).nextTimer ≤ (applyStatus snap ty (opRun opInit evs0)).nextTimer := by
      rcases applyStatus_timer_cases snap ty (opRun opInit evs0) with ⟨hn, _⟩ | ⟨hn, _⟩ <;> omega
    have hlb : opTimerLB (t.id + 1) (applyStatus snap ty (opRun opInit evs0)) := by
      refine ⟨by omega, fun u hu => ?_⟩
      rw [hcancel] at hu; cases hu
    have hlb2 := opRun_timerLB evs hlb
    exact fireHide_noop (fun u hu => by have := hlb2.2 u hu; omega)
  · have hnext : (scanRun scanInit evs0').nextTimer ≤ (scanApplyStatus snap' now (scanRun scanInit evs0')).nextTimer := by
      rcases scanApplyStatus_timer_cases snap' now (scanRun scanInit evs0') with ⟨hn, _⟩ | ⟨hn, _⟩ <;> omega
    have hlb : scanTimerLB (t'.id + 1) (scanApplyStatus snap' now (scanRun scanInit evs0')) := by
      refine ⟨by omega, fun u hu => ?_⟩
      rw [hcancel'] at hu; cases hu
    have hlb2 := scanRun_timerLB evs' hlb
    exact scanFireHide_noop (fun u hu => by have := hlb2.2 u hu; omega)

/-- Witness for C3: both stores reach a pending-timer state by `running` then
`done`, a new `running` snapshot cancels the timer, and firing the stale id is
a no-op. -/
theorem running_cancels_pendingHide_witness :
    (applyStatus runningSnap (some "batch")
        (opRun opInit [OpEvent.apply runningSnap (some "batch"), OpEvent.apply doneSnap (some "batch")])).hideTimer = none ∧
    (let s1 := applyStatus runningSnap (some "batch")
        (opRun opInit [OpEvent.apply runningSnap (some "batch"), OpEvent.apply doneSnap (some "batch")])
     fireHide (Timer.mk 0 5000).id (opRun s1 []) = opRun s1 []) ∧
    (scanApplyStatus runningSnap "t2"
        (scanRun scanInit [ScanEvent.apply runningSnap "t0", ScanEvent.apply doneSnap "t1"])).hideTimer = none ∧
    (let u1 := scanApplyStatus runningSnap "t2"
        (scanRun scanInit [ScanEvent.apply runningSnap "t0", ScanEvent.apply doneSnap "t1"])
     scanFireHide (Timer.mk 0 5000).id (scanRun u1 []) = scanRun u1 []) :=
  running_cancels_pendingHide
    [OpEvent.apply runningSnap (some "batch"), OpEvent.apply doneSnap (some "batch")]
    (Timer.mk 0 5000) runningSnap (some "batch") []
    [ScanEvent.apply runningSnap "t0", ScanEvent.apply doneSnap "t1"]
    (Timer.mk 0 5000) runningSnap "t2" []
    (by decide) rfl (by decide) rfl

/-- Claim C4: a poll tick whose fetch fails with a transport error (network
failure, or an HTTP response with `!res.ok`) leaves both projector stores
entirely unchanged (in particular, no error state is set) and leaves both
interval timers installed exactly as they were, so the poller tries again on
the next tick. -/
theorem transportFailure_leavesStateUnchanged (s : AppState) (r : FetchResult) (now : String)
    (h : r = FetchResult.networkError ∨ r = FetchResult.httpNotOk) :
    (scanTick r now s).scanStore = s.scanStore ∧
    (scanTick r now s).op = s.op ∧
    (scanTick r now s).scanPoller = s.scanPoller ∧
    (scanTick r now s).batchPoller = s.batchPoller ∧
    (batchTick r s).op = s.op ∧
    (batchTick r s).scanStore = s.scanStore ∧
    (batchTick r s).batchPoller = s.batchPoller ∧
    (batchTick r s).scanPoller = s.scanPoller := by
  rcases h with h | h <;> subst h <;>
    constructor <;>
      simp [scanTick, scanPollBody, batchTick, batchPollOnce] <;>
      split_ifs <;> simp

/-- Witness for C4 at a concrete network failure. -/
theorem transportFailure_leavesStateUnchanged_witness :
    (scanTick FetchResult.networkError "t0" appInit).scanStore = appInit.scanStore ∧
    (scanTick FetchResult.networkError "t0" appInit).op = appInit.op ∧
    (scanTick FetchResult.networkError "t0" appInit).scanPoller = appInit.scanPoller ∧
    (scanTick FetchResult.networkError "t0" appInit).batchPoller = appInit.batchPoller ∧
    (batchTick FetchResult.networkError appInit).op = appInit.op ∧
    (batchTick FetchResult.networkError appInit).scanStore = appInit.scanStore ∧
    (batchTick FetchResult.networkError appInit).batchPoller = appInit.batchPoller ∧
    (batchTick FetchResult.networkError appInit).scanPoller = appInit.scanPoller :=
  transportFailure_leavesStateUnchanged appInit FetchResult.networkError "t0" (Or.inl rfl)

/-- Claim C5: when persisting the settings fails (non-ok response or thrown
error), every in-memory settings value after the save attempt equals the value
committed before the attempt — no field is changed — and an error is surfaced
(the store's error field is set). -/
theorem settingsSaveFailure_keepsValues (s : SettingsStore) (r : SaveResult)
    (h : r ≠ SaveResult.ok) :
    (saveSettings r s).theme = s.theme ∧
    (saveSettings r s).showBoundingBoxes = s.showBoundingBoxes ∧
    (saveSettings r s).autoSave = s.autoSave ∧
    (saveSettings r s).posterDensity = s.posterDensity ∧
    (saveSettings r s).defaultLabelsToRemove = s.defaultLabelsToRemove ∧
    (saveSettings r s).saveLocation = s.saveLocation ∧
    (saveSettings r s).error.isSome = true := by
  cases r with
  | ok => exact absurd rfl h
  | httpError status => simp [saveSettings]
  | networkError msg => simp [saveSettings]

/-- Witness for C5 at a concrete HTTP 500 failure. -/
theorem settingsSaveFailure_keepsValues_witness :
    (saveSettings (SaveResult.httpError 500) settingsInit).theme = settingsInit.theme ∧
    (saveSettings (SaveResult.httpError 500) settingsInit).showBoundingBoxes = settingsInit.showBoundingBoxes ∧
    (saveSettings (SaveResult.httpError 500) settingsInit).autoSave = settingsInit.autoSave ∧
    (saveSettings (SaveResult.httpError 500) settingsInit).posterDensity = settingsInit.posterDensity ∧
    (saveSettings (SaveResult.httpError 500) settingsInit).defaultLabelsToRemove = settingsInit.defaultLabelsToRemove ∧
    (saveSettings (SaveResult.httpError 500) settingsInit).saveLocation = settingsInit.saveLocation ∧
    (saveSettings (SaveResult.httpError 500) settingsInit).error.isSome = true :=
  settingsSaveFailure_keepsValues settingsInit (SaveResult.httpError 500) (by decide)

/-- Counterexample to Claim C6 as stated: seeding the editor from a preset
whose options carry no overlay file and building the render payload yields
`overlay_file = null` — a null IS propagated into the options payload sent to
a render call (`overlay_file: options.value.overlayFile || null`). -/
theorem presetSeeding_counterexample :
    (optionsPayload (seedFromPreset emptyPresetOptions editorInit)).overlay_file = none := by
  decide

/-- Claim C6 (amended): when the editor seeds its live slider parameters from
a preset's options, each unconditionally seeded 0-1 ratio field (poster_zoom,
poster_shift_y, matte_height_ratio, fade_height_ratio, vignette_strength,
grain_amount, logo_scale, logo_offset) becomes a rounded 0-100 percentage with
its fixed default when missing (poster_zoom to 1, logo_scale to 0.5,
logo_offset to 0.75, border_px to 0); overlay_opacity is converted only when
present, otherwise the current slider value is kept; every numeric payload
field is a plain number, and the sole nullable payload field is overlay_file,
deliberately null exactly when no overlay file is set. -/
theorem presetSeeding_percentages (o : PresetOptions) (e : EditorState) :
    (seedFromPreset o e).posterZoom = jsRound ((o.poster_zoom.getD 1) * 100) ∧
    (seedFromPreset o e).posterShiftY = jsRound ((o.poster_shift_y.getD 0) * 100) ∧
    (seedFromPreset o e).matteHeight = jsRound ((o.matte_height_ratio.getD 0) * 100) ∧
    (seedFromPreset o e).fadeHeight = jsRound ((o.fade_height_ratio.getD 0) * 100) ∧
    (seedFromPreset o e).vignette = jsRound ((o.vignette_strength.getD 0) * 100) ∧
    (seedFromPreset o e).grain = jsRound ((o.grain_amount.getD 0) * 100) ∧
    (seedFromPreset o e).logoScale = jsRound ((o.logo_scale.getD (1 / 2)) * 100) ∧
    (seedFromPreset o e).logoOffset = jsRound ((o.logo_offset.getD (3 / 4)) * 100) ∧
    (seedFromPreset o e).borderThickness = o.border_px.getD 0 ∧
    (seedFromPreset o e).overlayOpacity =
      (match o.overlay_opacity with
       | some v => jsRound (v * 100)
       | none => e.overlayOpacity) ∧
    (optionsPayload (seedFromPreset o e)).poster_zoom =
      ((jsRound ((o.poster_zoom.getD 1) * 100) : ℚ) / 100) ∧
    ((optionsPayload (seedFromPreset o e)).overlay_file = none ↔
      (seedFromPreset o e).overlayFile = "") := by
  rw [seedFromPreset_eq]
  refine ⟨rfl, rfl, rfl, rfl, rfl, rfl, rfl, rfl, rfl, rfl, rfl, ?_⟩
  simp only [optionsPayload]
  split_ifs <;> simp_all

/-- Counterexample to Claim C7 as stated: the very first `done` snapshot stops
the batch poller even though no terminal state had been reflected previously
(the projector still showed `running`), contradicting the claimed
"terminal AND already reflected as terminal previously" stop condition. -/
theorem pollerStops_counterexample :
    (batchTick (FetchResult.ok doneSnap) pollerRunningState).batchPoller = none ∧
    ¬ (pollerRunningState.op.state = "done" ∨ pollerRunningState.op.state = "error") := by
  decide

/-- Claim C7 (amended): an installed poller stops its interval timer exactly
when a poll's fetch succeeds and the received snapshot's state is non-empty
and different from `running` — i.e. on the FIRST snapshot showing the job is
not running, with no requirement that a terminal state was reflected
previously (and `idle` also stops it) — and once stopped a tick issues no
further request of either poller. -/
theorem pollerStops_onFirstNonRunning (s : AppState) (snap : Snapshot) (i j : Nat)
    (now : String) (r : FetchResult)
    (hb : s.batchPoller = some i) (hsc : s.scanPoller = some j) :
    ((batchTick (FetchResult.ok snap) s).batchPoller = none ↔
      (snap.state ≠ "" ∧ snap.state ≠ "running")) ∧
    ((scanTick (FetchResult.ok snap) now s).scanPoller = none ↔
      (snap.state ≠ "" ∧ snap.state ≠ "running")) ∧
    batchTick r (stopBatchPolling s) = stopBatchPolling s ∧
    scanTick r now (stopScanPolling s) = stopScanPolling s := by
  refine ⟨?_, ?_, ?_, ?_⟩
  · simp only [batchTick, batchPollOnce, hb, Option.isSome_some, if_true]
    split_ifs with hc <;> simp [stopBatchPolling, hb, hc]
  · simp only [scanTick, scanPollBody, hsc, Option.isSome_some, if_true]
    split_ifs with hc <;> simp [stopScanPolling, hsc, hc]
  · simp [batchTick, stopBatchPolling]
  · simp [scanTick, stopScanPolling]

/-- Witness for C7 (amended) at a concrete state with both pollers installed. -/
theorem pollerStops_onFirstNonRunning_witness :
    ((batchTick (FetchResult.ok doneSnap) { appInit with batchPoller := some 200, scanPoller := some 3000 }).batchPoller = none ↔
      (doneSnap.state ≠ "" ∧ doneSnap.state ≠ "running")) ∧
    ((scanTick (FetchResult.ok doneSnap) "t0" { appInit with batchPoller := some 200, scanPoller := some 3000 }).scanPoller = none ↔
      (doneSnap.state ≠ "" ∧ doneSnap.state ≠ "running")) ∧
    batchTick FetchResult.networkError (stopBatchPolling { appInit with batchPoller := some 200, scanPoller := some 3000 }) =
      stopBatchPolling { appInit with batchPoller := some 200, scanPoller := some 3000 } ∧
    scanTick FetchResult.networkError "t0" (stopScanPolling { appInit with batchPoller := some 200, scanPoller := some 3000 }) =
      stopScanPolling { appInit with batchPoller := some 200, scanPoller := some 3000 } :=
  pollerStops_onFirstNonRunning { appInit with batchPoller := some 200, scanPoller := some 3000 }
    doneSnap 200 3000 "t0" FetchResult.networkError rfl rfl

/-- Counterexample to Claim C8 as stated: `startScanPolling` does not issue an
immediate fetch — it only installs the interval, so the request count is
unchanged (the immediate scan fetch happens separately, in `onMounted`'s
`fetchScanStatus`, not in the poller start). -/
theorem pollerStart_counterexample :
    (startScanPolling appInit).requests ≠ appInit.requests + 1 := by
  decide

/-- Claim C8 (amended): starting the batch poller issues an immediate fetch
and installs the fast 200 ms interval (which the immediate fetch's own result
already removes exactly when it reports a non-empty, non-running state), while
starting the scan poller issues no immediate fetch and installs the coarse
3000 ms interval. -/
theorem pollerStart_intervals (s : AppState) (r : FetchResult) :
    (startBatchPolling r s).requests = s.requests + 1 ∧
    (startScanPolling s).requests = s.requests ∧
    (startScanPolling s).scanPoller = some 3000 ∧
    ((startBatchPolling r s).batchPoller = none ↔
      ∃ snap, r = FetchResult.ok snap ∧ snap.state ≠ "" ∧ snap.state ≠ "running") ∧
    ((startBatchPolling r s).batchPoller = none ∨ (startBatchPolling r s).batchPoller = some 200) := by
  cases r with
  | ok snap =>
      refine ⟨?_, ?_, ?_, ?_, ?_⟩ <;>
        simp [startBatchPolling, batchPollOnce, stopBatchPolling, startScanPolling, stopScanPolling] <;>
        split_ifs with hc <;> simp_all
  | networkError =>
      simp [startBatchPolling, batchPollOnce, stopBatchPolling, startScanPolling, stopScanPolling]
  | httpNotOk =>
      simp [startBatchPolling, batchPollOnce, stopBatchPolling, startScanPolling, stopScanPolling]

/-- Claim C9: the unified operation-status projector maintains the invariant
that whenever `visible = true` its state is `running`, `done` or `error`
(never `idle`): the invariant holds in the initial state and is preserved by
every event — `applyStatus` with any snapshot and operation type, `reset()`,
and the firing of the hide timer. -/
theorem visible_state_invariant (s : OpStatus) (e : OpEvent) (h : opInvB s = true) :
    opInvB opInit = true ∧ opInvB (opStep s e) = true := by
  refine ⟨by decide, ?_⟩
  cases e with
  | apply snap ty =>
      simp only [opStep, applyStatus, scheduleHide, opInvB]
      split_ifs <;> simp_all
  | fire i =>
      simp only [opStep, fireHide]
      cases hh : s.hideTimer with
      | none => exact h
      | some t =>
          by_cases hid : t.id = i <;> simp_all [opInvB]
  | reset => simp [opStep, opReset, opInvB]

/-- Witness for C9: the invariant holds initially and after applying a
concrete `running` snapshot. -/
theorem visible_state_invariant_witness :
    opInvB opInit = true ∧ opInvB (opStep opInit (OpEvent.apply runningSnap (some "scan"))) = true :=
  visible_state_invariant opInit (OpEvent.apply runningSnap (some "scan")) (by decide)

/-- Claim C10: once a completion has been displayed (a terminal snapshot
applied while `activeRunStarted` was true, which clears `activeRunStarted` and
schedules the hide timer), applying any further terminal snapshot — including
a repeat of the same `done` snapshot from the next poll — immediately sets
`visible = false`, cutting the completion display short rather than waiting
for the hide timer.  Proved for the unified projector (first snapshot `done`
or `error`) and for the legacy scan store (whose completion branch only fires
on `done`). -/
theorem repeatedTerminal_hidesImmediately (s : OpStatus) (u : ScanStore)
    (a b c d : Snapshot) (ty1 ty2 : Option String) (n1 n2 : String)
    (hs : s.activeRunStarted = true) (hu : u.activeRunStarted = true)
    (ha : a.state = "done" ∨ a.state = "error") (hb : b.state = "done" ∨ b.state = "error")
    (hc : c.state = "done") (hd : d.state = "done" ∨ d.state = "error") :
    ((applyStatus a ty1 s).visible = true ∧
      (applyStatus a ty1 s).activeRunStarted = false ∧
      (applyStatus a ty1 s).hideTimer.isSome = true ∧
      (applyStatus b ty2 (applyStatus a ty1 s)).visible = false) ∧
    ((scanApplyStatus c n1 u).visible = true ∧
      (scanApplyStatus c n1 u).activeRunStarted = false ∧
      (scanApplyStatus c n1 u).hideTimer.isSome = true ∧
      (scanApplyStatus d n2 (scanApplyStatus c n1 u)).visible = false) := by
  rcases ha with ha | ha <;> rcases hb with hb | hb <;> rcases hd with hd | hd <;>
    simp [applyStatus, scanApplyStatus, scheduleHide, scanScheduleHide, hs, hu, ha, hb, hc, hd]

/-- Witness for C10 at concrete repeated `done` snapshots. -/
theorem repeatedTerminal_hidesImmediately_witness :
    ((applyStatus doneSnap (some "batch") { opInit with activeRunStarted := true }).visible = true ∧
      (applyStatus doneSnap (some "batch") { opInit with activeRunStarted := true }).activeRunStarted = false ∧
      (applyStatus doneSnap (some "batch") { opInit with activeRunStarted := true }).hideTimer.isSome = true ∧
      (applyStatus doneSnap (some "batch") (applyStatus doneSnap (some "batch") { opInit with activeRunStarted := true })).visible = false) ∧
    ((scanApplyStatus doneSnap "t1" { scanInit with activeRunStarted := true }).visible = true ∧
      (scanApplyStatus doneSnap "t1" { scanInit with activeRunStarted := true }).activeRunStarted = false ∧
      (scanApplyStatus doneSnap "t1" { scanInit with activeRunStarted := true }).hideTimer.isSome = true ∧
      (scanApplyStatus doneSnap "t2" (scanApplyStatus doneSnap "t1" { scanInit with activeRunStarted := true })).visible = false) :=
  repeatedTerminal_hidesImmediately { opInit with activeRunStarted := true }
    { scanInit with activeRunStarted := true } doneSnap doneSnap doneSnap doneSnap
    (some "batch") (some "batch") "t1" "t2" rfl rfl (Or.inl rfl) (Or.inl rfl) rfl (Or.inl rfl)

end Simposter
